import Mathlib

/-!
Shallow embedding of `src/script.js` (class `BehaviorAnalyzer`).

Conventions of the embedding:
* JS numbers are modelled as `ℚ`.  The two floating-point operations with no
  exact rational counterpart are treated as follows:
  - `Math.sqrt` is a parameter `jsSqrt : ℚ → ℚ` of every definition that uses
    it (only `calculateDistance` and its callers); no theorem below depends on
    its values.
  - a JS division whose divisor is `0` produces a non-finite value
    (`Infinity`, `-Infinity` or `NaN`); where that can actually happen in the
    source (the click-frequency formula), the division is modelled by
    `jsDiv : ℚ → ℚ → Option ℚ` with `none` standing for "non-finite".
* The DOM is out of scope except for the heatmap cell list, whose
  append/evict bookkeeping in `updateClickHeatmap` is modelled on a plain
  list (`removeChild(firstChild)` = drop the head).
* Trait names, style classes and insight sentences are fixed label sets in
  the source (`'Решительный'`/`'confident'`, ...); they are modelled as
  inductive enumerations, constructor names following the spec's English
  glosses (decisive, attentive, active, systematic, quickReacting,
  energetic, balanced; confident, cautious, impulsive; and the four insight
  sentences).
-/

namespace BehaviorAnalyzer

/-- One accepted mouse-move sample: an entry of `this.mouseData`
(`{x, y, speed, timestamp}`, script.js lines 41-46). -/
structure PointerSample where
  x : ℚ
  y : ℚ
  speed : ℚ
  timestamp : ℚ
  deriving DecidableEq

/-- One click sample: an entry of `this.clickData`
(`{x, y, timestamp, pressure}`, script.js lines 61-66). -/
structure ClickSample where
  x : ℚ
  y : ℚ
  timestamp : ℚ
  pressure : ℚ
  deriving DecidableEq

/-- One scroll sample: an entry of `this.scrollData`
(`{position, timestamp, velocity}`, script.js lines 76-80). -/
structure ScrollSample where
  position : ℚ
  timestamp : ℚ
  velocity : ℚ
  deriving DecidableEq

/-- One normalized movement point: an entry of `this.movementPoints`
(`{x: clientX/innerWidth, y: clientY/innerHeight, time}`, script.js
lines 52-56). -/
structure MovementPoint where
  x : ℚ
  y : ℚ
  time : ℚ
  deriving DecidableEq

/-- The mutable fields of the `BehaviorAnalyzer` instance that the analytical
core reads or writes (script.js lines 2-9).  DOM handles and the timer ids
are not part of the data model. -/
structure AnalyzerState where
  mouseData : List PointerSample
  clickData : List ClickSample
  scrollData : List ScrollSample
  sessionStart : ℚ
  movementPoints : List MovementPoint
  lastMousePosition : ℚ × ℚ
  lastMoveTime : ℚ
  deriving DecidableEq

/-- Constructor state (script.js lines 2-9): empty buffers,
`sessionStart = lastMoveTime = Date.now()`, `lastMousePosition = (0, 0)`. -/
def initialAnalyzer (now : ℚ) : AnalyzerState :=
  { mouseData := []
    clickData := []
    scrollData := []
    sessionStart := now
    movementPoints := []
    lastMousePosition := (0, 0)
    lastMoveTime := now }

/-- `calculateDistance` (script.js lines 89-91):
`Math.sqrt(Math.pow(x2-x1, 2) + Math.pow(y2-y1, 2))`, with `Math.sqrt`
abstracted as `jsSqrt`. -/
def calculateDistance (jsSqrt : ℚ → ℚ) (x1 y1 x2 y2 : ℚ) : ℚ :=
  jsSqrt ((x2 - x1) ^ 2 + (y2 - y1) ^ 2)

/-- `handleMouseMove` (script.js lines 30-58).  `timeDiff` is measured
against `lastMoveTime`; a call with `timeDiff <= 50` leaves the state
untouched (in particular it does not update `lastMoveTime`).  An accepted
call appends a `PointerSample`, appends a normalized `MovementPoint`, and
updates `lastMousePosition`/`lastMoveTime`.  The `updateMetric` side effect
is display-only and not modelled. -/
def handleMouseMove (jsSqrt : ℚ → ℚ) (innerWidth innerHeight : ℚ)
    (st : AnalyzerState) (x y now : ℚ) : AnalyzerState :=
  let timeDiff := now - st.lastMoveTime
  if timeDiff > 50 then
    let distance :=
      calculateDistance jsSqrt st.lastMousePosition.1 st.lastMousePosition.2 x y
    let speed := distance / (timeDiff / 1000)
    { st with
        mouseData := st.mouseData ++ [⟨x, y, speed, now⟩]
        lastMousePosition := (x, y)
        lastMoveTime := now
        movementPoints :=
          st.movementPoints ++ [⟨x / innerWidth, y / innerHeight, now⟩] }
  else st

/-- A sequence of `handleMouseMove` calls, each given as `(x, y, now)`. -/
def runMoves (jsSqrt : ℚ → ℚ) (innerWidth innerHeight : ℚ)
    (st : AnalyzerState) (calls : List (ℚ × ℚ × ℚ)) : AnalyzerState :=
  calls.foldl
    (fun s c => handleMouseMove jsSqrt innerWidth innerHeight s c.1 c.2.1 c.2.2)
    st

/-- JS `v || d` for a possibly missing numeric field: the default is taken
when the field is absent (`undefined`) or when its value is falsy — for a
number, when it is `0`.  (`NaN` is also falsy but has no `ℚ`
representative.)  Models `event.pressure || 0.5` in script.js line 65. -/
def jsOr (v : Option ℚ) (d : ℚ) : ℚ :=
  match v with
  | none => d
  | some x => if x = 0 then d else x

/-- `handleClick` (script.js lines 60-72): unconditionally appends a
`ClickSample` whose pressure is `event.pressure || 0.5`.  The click-count
metric, heatmap and timeline emissions are presentation-sink calls; the
heatmap bookkeeping is modelled separately by `updateClickHeatmap`. -/
def handleClick (st : AnalyzerState) (x y : ℚ) (pressure : Option ℚ)
    (now : ℚ) : AnalyzerState :=
  { st with clickData := st.clickData ++ [⟨x, y, now, jsOr pressure 0.5⟩] }

/-- `calculateScrollVelocity` (script.js lines 93-98): `0` if the buffer
holds fewer than 2 samples, else
`|last.position - prev.position| / ((last.timestamp - prev.timestamp)/1000)`
where `last`/`prev` are `scrollData[length-1]`/`scrollData[length-2]` of the
buffer **as it is when the function is called**.  Indexing is modelled with
`getD` (both indexes are in bounds under the length guard). -/
def calculateScrollVelocity (scrollData : List ScrollSample) : ℚ :=
  if scrollData.length < 2 then 0
  else
    let lastS := scrollData.getD (scrollData.length - 1) ⟨0, 0, 0⟩
    let prevS := scrollData.getD (scrollData.length - 2) ⟨0, 0, 0⟩
    |lastS.position - prevS.position| / ((lastS.timestamp - prevS.timestamp) / 1000)

/-- `handleScroll` (script.js lines 74-83).  The pushed object literal is
evaluated before the push, so `calculateScrollVelocity` runs on the buffer
**without** the new sample: the stored velocity is derived from the two
samples that precede the new one. -/
def handleScroll (st : AnalyzerState) (scrollY now : ℚ) : AnalyzerState :=
  { st with
      scrollData :=
        st.scrollData ++ [⟨scrollY, now, calculateScrollVelocity st.scrollData⟩] }

/-- JS division with non-finite results abstracted: `jsDiv a b` is `none`
when `b = 0` (JS yields `NaN` for `0/0` and `±Infinity` otherwise) and
`some (a / b)` when `b ≠ 0`. -/
def jsDiv (a b : ℚ) : Option ℚ :=
  if b = 0 then none else some (a / b)

/-- The click timestamps sorted ascending:
`this.clickData.map(c => c.timestamp).sort((a, b) => a - b)` (script.js
line 190).  `map` returns a fresh array, so the sort never touches
`this.clickData`; on numbers an ascending comparator determines the result
uniquely, modelled by `insertionSort`. -/
def clickTimesSorted (clickData : List ClickSample) : List ℚ :=
  (clickData.map (·.timestamp)).insertionSort (· ≤ ·)

/-- The consecutive inter-click intervals `times[i] - times[i-1]`
(script.js lines 191-194). -/
def clickIntervals (clickData : List ClickSample) : List ℚ :=
  List.zipWith (fun a b => b - a)
    (clickTimesSorted clickData) (clickTimesSorted clickData).tail

/-- The mean inter-click interval
`intervals.reduce((a, b) => a + b) / intervals.length` (script.js
line 195). -/
def avgInterval (clickData : List ClickSample) : ℚ :=
  (clickIntervals clickData).sum / (clickIntervals clickData).length

/-- `calculateDecisionSpeed` (script.js lines 188-197): `0.5` with fewer
than 2 clicks, else `Math.min(1, 1000 / avgInterval)`.  When every click
carries the same timestamp, `avgInterval = 0` and JS computes
`Math.min(1, 1000/0) = Math.min(1, Infinity) = 1`; that branch is spelled
out because `ℚ` has no `Infinity`. -/
def calculateDecisionSpeed (clickData : List ClickSample) : ℚ :=
  if clickData.length < 2 then 0.5
  else if avgInterval clickData = 0 then 1
  else min 1 (1000 / avgInterval clickData)

/-- The per-step speeds between consecutive movement points:
`dist(points[i-1], points[i]) / ((points[i].time - points[i-1].time)/1000)`
(script.js lines 171-181). -/
def stepSpeeds (jsSqrt : ℚ → ℚ) (movementPoints : List MovementPoint) :
    List ℚ :=
  List.zipWith
    (fun a b => calculateDistance jsSqrt a.x a.y b.x b.y / ((b.time - a.time) / 1000))
    movementPoints movementPoints.tail

/-- The (population) variance of the per-step speeds:
`speeds.reduce((a, b) => a + Math.pow(b - avg, 2), 0) / speeds.length`
(script.js lines 183-184). -/
def speedsVariance (jsSqrt : ℚ → ℚ) (movementPoints : List MovementPoint) : ℚ :=
  let speeds := stepSpeeds jsSqrt movementPoints
  let avg := speeds.sum / speeds.length
  (speeds.map fun s => (s - avg) ^ 2).sum / speeds.length

/-- `calculateMovementConsistency` (script.js lines 168-186): `0.5` with
fewer than 10 movement points, else `Math.max(0, 1 - variance/10000)`.
The rate gate of `handleMouseMove` keeps stored movement-point times more
than 50 ms apart, so the per-step time divisors are nonzero on every buffer
the analyzer actually builds. -/
def calculateMovementConsistency (jsSqrt : ℚ → ℚ)
    (movementPoints : List MovementPoint) : ℚ :=
  if movementPoints.length < 10 then 0.5
  else max 0 (1 - speedsVariance jsSqrt movementPoints / 10000)

/-- `Math.max(...xs)` for the nonempty lists it is applied to (script.js
line 157 guards the empty case separately; JS would give `-Infinity` on an
empty spread, which never happens here). -/
def maxOfList : List ℚ → ℚ
  | [] => 0
  | x :: xs => xs.foldl max x

/-- The derived metrics snapshot returned by `analyzeBehaviorPatterns`
(script.js lines 159-165).  `clickFrequency` is `Option ℚ` because the
source divides by the elapsed session time with no guard: at zero elapsed
time the JS value is non-finite (`none`). -/
structure MetricsSnapshot where
  avgSpeed : ℚ
  clickFrequency : Option ℚ
  scrollIntensity : ℚ
  movementConsistency : ℚ
  decisionSpeed : ℚ
  deriving DecidableEq

/-- `analyzeBehaviorPatterns` (script.js lines 151-166), with the state it
ran on returned alongside the snapshot.  The source only reads the buffers:
the single mutating array operation in its call graph is the `.sort` inside
`calculateDecisionSpeed`, and that sorts the fresh array produced by
`.map`, never `this.clickData` itself — so the returned state is the input
state. -/
def analyzeBehaviorPatterns (jsSqrt : ℚ → ℚ) (st : AnalyzerState)
    (now : ℚ) : MetricsSnapshot × AnalyzerState :=
  let avgSpeed :=
    if st.mouseData.length > 0 then
      (st.mouseData.map (·.speed)).sum / st.mouseData.length
    else 0
  let clickFrequency :=
    jsDiv st.clickData.length ((now - st.sessionStart) / 60000)
  let scrollIntensity :=
    if st.scrollData.length > 0 then maxOfList (st.scrollData.map (·.velocity))
    else 0
  (⟨avgSpeed, clickFrequency, scrollIntensity,
     calculateMovementConsistency jsSqrt st.movementPoints,
     calculateDecisionSpeed st.clickData⟩,
   st)

/-- The metrics record the classifier consumes (the `patterns` parameter of
`generatePersonalityProfile`/`generateInsight`).  All fields are plain `ℚ`:
the classifier claims are stated over snapshots with finite values. -/
structure Patterns where
  avgSpeed : ℚ
  clickFrequency : ℚ
  scrollIntensity : ℚ
  movementConsistency : ℚ
  decisionSpeed : ℚ
  deriving DecidableEq

/-- Trait labels of the source, by their spec names: `decisive` =
`'Решительный'`, `attentive` = `'Внимательный'`, `active` = `'Активный'`,
`systematic` = `'Системный'`, `quickReacting` = `'Быстрореагирующий'`,
`energetic` = `'Энергичный'`, `balanced` = `'Сбалансированный'`. -/
inductive TraitName where
  | decisive
  | attentive
  | active
  | systematic
  | quickReacting
  | energetic
  | balanced
  deriving DecidableEq

/-- The style classes `'confident'`, `'cautious'`, `'impulsive'`. -/
inductive TraitClass where
  | confident
  | cautious
  | impulsive
  deriving DecidableEq

/-- A trait badge `{name, class}`. -/
structure Trait where
  name : TraitName
  styleClass : TraitClass
  deriving DecidableEq

/-- `generatePersonalityProfile` (script.js lines 199-225): the avgSpeed
rules are an if/else-if pair (mutually exclusive), the remaining four rules
are independent; traits are collected in rule order, and the fallback
`balanced` trait is returned only when no rule pushed anything. -/
def generatePersonalityProfile (patterns : Patterns) : List Trait :=
  let traits :=
    (if patterns.avgSpeed > 500 then [⟨.decisive, .confident⟩]
     else if patterns.avgSpeed < 200 then [⟨.attentive, .cautious⟩]
     else [])
    ++ (if patterns.clickFrequency > 5 then [⟨.active, .impulsive⟩] else [])
    ++ (if patterns.movementConsistency > 0.7 then [⟨.systematic, .confident⟩] else [])
    ++ (if patterns.decisionSpeed > 0.8 then [⟨.quickReacting, .impulsive⟩] else [])
    ++ (if patterns.scrollIntensity > 100 then [⟨.energetic, .impulsive⟩] else [])
  if traits.length > 0 then traits else [⟨.balanced, .confident⟩]

/-- The four insight sentences of `generateInsight`, by their spec names
(rule 1 = "энергичный и целеустремленный", rule 2 = "методичностью и
вниманием к деталям", rule 3 = "быстро принимаете решения", default =
"адаптивный и сбалансированный"). -/
inductive Insight where
  | energeticGoalDriven
  | methodicalDetailOriented
  | fastIntuitive
  | adaptiveBalanced
  deriving DecidableEq

/-- `generateInsight` (script.js lines 227-237): first matching rule wins;
the `traits` parameter is accepted but never read by the source. -/
def generateInsight (patterns : Patterns) (_traits : List Trait) : Insight :=
  if patterns.avgSpeed > 600 ∧ patterns.clickFrequency > 8 then
    .energeticGoalDriven
  else if patterns.avgSpeed < 300 ∧ patterns.movementConsistency > 0.8 then
    .methodicalDetailOriented
  else if patterns.decisionSpeed > 0.9 then
    .fastIntuitive
  else
    .adaptiveBalanced

/-- The heatmap cell `updateClickHeatmap` appends (script.js lines
109-115), reduced to its one bit of state: whether the `intense` class was
added (`Math.min(clickData.length / 10, 1) > 0.7`). -/
def heatmapCell (clickCount : ℕ) : Bool :=
  decide (min ((clickCount : ℚ) / 10) 1 > 0.7)

/-- The heatmap bookkeeping of `updateClickHeatmap` (script.js lines
107-122): append the new cell, then drop the oldest cell
(`removeChild(heatmap.firstChild)`) when the count exceeds 50. -/
def updateClickHeatmap (cells : List Bool) (clickCount : ℕ) : List Bool :=
  let cells1 := cells ++ [heatmapCell clickCount]
  if cells1.length > 50 then cells1.tail else cells1

/-- The all-neutral metrics snapshot of the spec: avgSpeed 0, click
frequency 0, scroll intensity 0, movement consistency 0.5, decision speed
0.5. -/
def neutralPatterns : Patterns :=
  ⟨0, 0, 0, 0.5, 0.5⟩

/-- The snapshot of spec §8: avgSpeed 650, clickFrequencyPerMinute 9,
remaining metrics at their neutral defaults. -/
def energeticPatterns : Patterns :=
  ⟨650, 9, 0, 0.5, 0.5⟩

/-- Four clicks at timestamps 0, 500, 1000, 1500 ms (spec §8's
decision-speed example). -/
def clicks4 : List ClickSample :=
  [⟨0, 0, 0, 0.5⟩, ⟨0, 0, 500, 0.5⟩, ⟨0, 0, 1000, 0.5⟩, ⟨0, 0, 1500, 0.5⟩]

/-- Ten movement points 100 ms apart, used to exercise the length-10
branch of `calculateMovementConsistency`. -/
def tenPoints : List MovementPoint :=
  [⟨0, 0, 0⟩, ⟨1, 0, 100⟩, ⟨2, 0, 200⟩, ⟨3, 0, 300⟩, ⟨4, 0, 400⟩,
   ⟨5, 0, 500⟩, ⟨6, 0, 600⟩, ⟨7, 0, 700⟩, ⟨8, 0, 800⟩, ⟨9, 0, 900⟩]

/-- The scroll trace of spec §8: offsets 0, 100, 100 at 0, 1000, 2000 ms,
played into a fresh analyzer. -/
def scrollTrace : AnalyzerState :=
  handleScroll (handleScroll (handleScroll (initialAnalyzer 0) 0 0) 100 1000) 100 2000

/-- A state holding exactly the first two samples of the spec §8 scroll
trace, as stored by `handleScroll` (both carry velocity 0). -/
def scrollPair : AnalyzerState :=
  { initialAnalyzer 0 with scrollData := [⟨0, 0, 0⟩, ⟨100, 1000, 0⟩] }

/-- One click recorded at the session start instant: the state reaching the
unguarded click-frequency division with zero elapsed time. -/
def oneClickAtStart : AnalyzerState :=
  handleClick (initialAnalyzer 0) 0 0 none 0

/-- C1 counterexample: at the all-neutral snapshot the classifier does
**not** emit the fallback `balanced` trait — `avgSpeed = 0` satisfies
`avgSpeed < 200`, so the rule table fires and the profile is the single
`attentive`/`cautious` trait. -/
theorem c1_neutral_counterexample :
    generatePersonalityProfile neutralPatterns = [⟨.attentive, .cautious⟩] ∧
    generatePersonalityProfile neutralPatterns ≠ [⟨.balanced, .confident⟩] := by
  constructor
  · norm_num [generatePersonalityProfile, neutralPatterns]
  · norm_num [generatePersonalityProfile, neutralPatterns]
    decide

/-- C1 (amended): at the all-neutral snapshot the classifier emits exactly
the single `attentive`/`cautious` trait (the `avgSpeed < 200` rule fires at
`avgSpeed = 0`) together with the default `adaptiveBalanced` insight, and
the fallback `balanced`/`confident` trait is emitted exactly when no
threshold rule fires. -/
theorem c1_neutral_profile :
    generatePersonalityProfile neutralPatterns = [⟨.attentive, .cautious⟩] ∧
    generateInsight neutralPatterns (generatePersonalityProfile neutralPatterns) =
      .adaptiveBalanced ∧
    ∀ p : Patterns,
      generatePersonalityProfile p = [⟨.balanced, .confident⟩] ↔
        ¬p.avgSpeed > 500 ∧ ¬p.avgSpeed < 200 ∧ ¬p.clickFrequency > 5 ∧
        ¬p.movementConsistency > 0.7 ∧ ¬p.decisionSpeed > 0.8 ∧
        ¬p.scrollIntensity > 100 := by
  refine ⟨by norm_num [generatePersonalityProfile, neutralPatterns],
          by norm_num [generatePersonalityProfile, generateInsight, neutralPatterns],
          fun p => ?_⟩
  unfold generatePersonalityProfile
  by_cases h1 : p.avgSpeed > 500 <;> by_cases h2 : p.avgSpeed < 200 <;>
    by_cases h3 : p.clickFrequency > 5 <;>
    by_cases h4 : p.movementConsistency > 0.7 <;>
    by_cases h5 : p.decisionSpeed > 0.8 <;>
    by_cases h6 : p.scrollIntensity > 100 <;>
    simp [h1, h2, h3, h4, h5, h6]

/-- C4: the click-frequency formula is **not** special-cased against a zero
elapsed session time: with one click recorded and `now = sessionStart` the
source computes `1 / 0`, a non-finite JS value (`none` here), while the
guarded `calculateDecisionSpeed` still returns its neutral `0.5` for the
single click. -/
theorem c4_click_frequency_unguarded :
    (analyzeBehaviorPatterns (fun q => q) oneClickAtStart 0).1.clickFrequency =
      none ∧
    (analyzeBehaviorPatterns (fun q => q) oneClickAtStart 0).1.decisionSpeed =
      0.5 := by
  constructor <;>
    norm_num [analyzeBehaviorPatterns, oneClickAtStart, handleClick,
      initialAnalyzer, jsDiv, jsOr, calculateDecisionSpeed]

/-- C7: at avgSpeed 650 and click frequency 9 (other metrics neutral) the
insight is rule 1's `energeticGoalDriven` sentence, and the profile is
exactly the `decisive`/`confident` trait followed by the
`active`/`impulsive` trait — in particular it contains both. -/
theorem c7_energetic_classification :
    generateInsight energeticPatterns (generatePersonalityProfile energeticPatterns) =
      .energeticGoalDriven ∧
    generatePersonalityProfile energeticPatterns =
      [⟨.decisive, .confident⟩, ⟨.active, .impulsive⟩] ∧
    Trait.mk .decisive .confident ∈ generatePersonalityProfile energeticPatterns ∧
    Trait.mk .active .impulsive ∈ generatePersonalityProfile energeticPatterns := by
  refine ⟨?_, ?_, ?_, ?_⟩ <;>
    norm_num [generateInsight, generatePersonalityProfile, energeticPatterns]

/-- C9: metric extraction is pure — `analyzeBehaviorPatterns` returns the
buffer state unchanged (in particular `clickData` keeps its stored order:
the sort acts on the fresh array produced by `map`), and recomputing over
the returned state at the same time yields the same snapshot. -/
theorem c9_analyze_pure :
    ∀ (jsSqrt : ℚ → ℚ) (st : AnalyzerState) (now : ℚ),
      (analyzeBehaviorPatterns jsSqrt st now).2 = st ∧
      (analyzeBehaviorPatterns jsSqrt st now).2.clickData = st.clickData ∧
      (analyzeBehaviorPatterns jsSqrt st now).1 =
        (analyzeBehaviorPatterns jsSqrt
          (analyzeBehaviorPatterns jsSqrt st now).2 now).1 := by
  intro jsSqrt st now
  exact ⟨rfl, rfl, rfl⟩

/-- C10: `event.pressure || 0.5` defaults on every falsy pressure — an
explicit pressure of exactly `0` is replaced by `0.5` just like a missing
one — so a buffer whose samples all have nonzero pressure still has only
nonzero pressures after any click is recorded. -/
theorem c10_pressure_default :
    (∀ (st : AnalyzerState) (x y now : ℚ),
      (handleClick st x y (some 0) now).clickData.getLast? =
        some ⟨x, y, now, 0.5⟩ ∧
      (handleClick st x y none now).clickData.getLast? =
        some ⟨x, y, now, 0.5⟩) ∧
    (∀ (st : AnalyzerState) (x y : ℚ) (pressure : Option ℚ) (now : ℚ),
      (∀ c ∈ st.clickData, c.pressure ≠ 0) →
      ∀ c ∈ (handleClick st x y pressure now).clickData, c.pressure ≠ 0) := by
  constructor
  · intro st x y now
    constructor <;> simp [handleClick, jsOr]
  · intro st x y pressure now hold c hc
    simp only [handleClick, List.mem_append, List.mem_singleton] at hc
    rcases hc with hc | rfl
    · exact hold c hc
    · show jsOr pressure 0.5 ≠ 0
      rcases pressure with _ | p
      · norm_num [jsOr]
      · by_cases hp : p = 0
        · norm_num [jsOr, hp]
        · simp [jsOr, hp]

/-- C10 witness: a click with explicit pressure 0 on a fresh analyzer is
stored with pressure 0.5, and that stored pressure is nonzero. -/
theorem c10_pressure_default_witness :
    (handleClick (initialAnalyzer 0) 1 2 (some 0) 3).clickData.getLast? =
      some ⟨1, 2, 3, 0.5⟩ ∧
    ClickSample.pressure ⟨1, 2, 3, (0.5 : ℚ)⟩ ≠ 0 := by
  refine ⟨(c10_pressure_default.1 (initialAnalyzer 0) 1 2 3).1, ?_⟩
  exact c10_pressure_default.2 (initialAnalyzer 0) 1 2 (some 0) 3
    (by simp [initialAnalyzer]) ⟨1, 2, 3, 0.5⟩
    (by norm_num [handleClick, initialAnalyzer, jsOr])

/-- C2 counterexample: playing the spec §8 scroll trace (offsets 0, 100,
100 at 0, 1000, 2000 ms) stores velocities [0, 0, 100], not the claimed
[0, 100, 0]: the velocity saved with each new sample is computed from the
buffer **before** the push, so it lags one sample behind. -/
theorem c2_scroll_trace_counterexample :
    scrollTrace.scrollData.map ScrollSample.velocity = [0, 0, 100] ∧
    scrollTrace.scrollData.map ScrollSample.velocity ≠ [0, 100, 0] := by
  constructor <;>
    norm_num [scrollTrace, handleScroll, calculateScrollVelocity, initialAnalyzer]

/-- C2 (amended): the velocity stored in the newly appended `ScrollSample`
is derived from the two most recent samples already in the buffer —
`|Δposition| / (Δtime/1000)` between them — and is 0 when the buffer held
fewer than 2 samples before the append (so the first two stored samples
carry velocity 0); the spec §8 trace therefore stores velocities
[0, 0, 100]. -/
theorem c2_scroll_velocity :
    (∀ (st : AnalyzerState) (scrollY now : ℚ), st.scrollData.length < 2 →
      (handleScroll st scrollY now).scrollData.getLast? =
        some ⟨scrollY, now, 0⟩) ∧
    (∀ (st : AnalyzerState) (scrollY now : ℚ) (init : List ScrollSample)
        (a b : ScrollSample), st.scrollData = init ++ [a, b] →
      (handleScroll st scrollY now).scrollData.getLast? =
        some ⟨scrollY, now,
          |b.position - a.position| / ((b.timestamp - a.timestamp) / 1000)⟩) ∧
    scrollTrace.scrollData.map ScrollSample.velocity = [0, 0, 100] := by
  refine ⟨?_, ?_, ?_⟩
  · intro st scrollY now hlen
    simp [handleScroll, calculateScrollVelocity, hlen]
  · intro st scrollY now init a b hsd
    have hl : (init ++ [a, b]).length = init.length + 2 := by simp
    have hvel : calculateScrollVelocity (init ++ [a, b]) =
        |b.position - a.position| / ((b.timestamp - a.timestamp) / 1000) := by
      have hb : (init ++ [a, b]).getD ((init ++ [a, b]).length - 1) ⟨0, 0, 0⟩ = b := by
        rw [hl, show init.length + 2 - 1 = init.length + 1 from by omega,
          List.getD_append_right _ _ _ _ (by omega)]
        simp
      have ha : (init ++ [a, b]).getD ((init ++ [a, b]).length - 2) ⟨0, 0, 0⟩ = a := by
        rw [hl, show init.length + 2 - 2 = init.length from by omega,
          List.getD_append_right _ _ _ _ (by omega)]
        simp
      simp only [calculateScrollVelocity]
      rw [if_neg (by rw [hl]; omega), hb, ha]
    simp [handleScroll, hsd, hvel]
  · norm_num [scrollTrace, handleScroll, calculateScrollVelocity, initialAnalyzer]

/-- C2 witness: on an empty buffer the appended sample carries velocity 0;
on a buffer holding the two samples (0 @ 0 ms) and (100 @ 1000 ms) the
appended sample carries velocity `|100 - 0| / ((1000 - 0)/1000)`. -/
theorem c2_scroll_velocity_witness :
    (handleScroll (initialAnalyzer 0) 5 7).scrollData.getLast? =
      some ⟨5, 7, 0⟩ ∧
    (handleScroll scrollPair 5 2500).scrollData.getLast? =
      some ⟨5, 2500,
        |(100 : ℚ) - 0| / (((1000 : ℚ) - 0) / 1000)⟩ := by
  constructor
  · exact c2_scroll_velocity.1 (initialAnalyzer 0) 5 7 (by decide)
  · exact c2_scroll_velocity.2.1 scrollPair 5 2500 [] ⟨0, 0, 0⟩ ⟨100, 1000, 0⟩ rfl

/-- C5: `calculateDecisionSpeed` returns 0.5 with fewer than 2 clicks; in
general it sorts the click timestamps ascending (a permutation of the
stored timestamps — the buffer itself is untouched), and when the mean
inter-click interval is nonzero it returns `min(1, 1000/mean)`; for clicks
at 0, 500, 1000, 1500 ms it returns exactly 1. -/
theorem c5_decision_speed :
    (∀ clickData : List ClickSample, clickData.length < 2 →
      calculateDecisionSpeed clickData = 0.5) ∧
    (∀ clickData : List ClickSample,
      (clickTimesSorted clickData).Sorted (· ≤ ·) ∧
      (clickTimesSorted clickData).Perm (clickData.map ClickSample.timestamp)) ∧
    (∀ clickData : List ClickSample, 2 ≤ clickData.length →
      avgInterval clickData ≠ 0 →
      calculateDecisionSpeed clickData = min 1 (1000 / avgInterval clickData)) ∧
    calculateDecisionSpeed clicks4 = 1 := by
  refine ⟨?_, ?_, ?_, ?_⟩
  · intro clickData hlen
    simp [calculateDecisionSpeed, hlen]
  · intro clickData
    exact ⟨List.sorted_insertionSort _ _, List.perm_insertionSort _ _⟩
  · intro clickData hlen havg
    have hnot : ¬clickData.length < 2 := by omega
    simp [calculateDecisionSpeed, hnot, havg]
  · have hsorted : clickTimesSorted clicks4 = [0, 500, 1000, 1500] := by decide
    have hintervals : clickIntervals clicks4 = [500, 500, 500] := by
      rw [clickIntervals, hsorted]
      norm_num
    have havg : avgInterval clicks4 = 500 := by
      rw [avgInterval, hintervals]
      norm_num
    rw [calculateDecisionSpeed, if_neg (by decide),
      if_neg (by rw [havg]; norm_num), havg]
    norm_num

/-- C5 witness: the empty buffer yields 0.5, and the four clicks at 0, 500,
1000, 1500 ms have a nonzero mean interval and yield
`min(1, 1000 / mean)`. -/
theorem c5_decision_speed_witness :
    calculateDecisionSpeed [] = 0.5 ∧
    calculateDecisionSpeed clicks4 = min 1 (1000 / avgInterval clicks4) := by
  constructor
  · exact c5_decision_speed.1 [] (by decide)
  · refine c5_decision_speed.2.2.1 clicks4 (by decide) ?_
    have hsorted : clickTimesSorted clicks4 = [0, 500, 1000, 1500] := by decide
    rw [avgInterval, clickIntervals, hsorted]
    norm_num

/-- C3 counterexample: three pointer-move calls at 100, 150, 200 ms
(consecutive gaps of 50 ms, each ≤ 50 ms) on a fresh analyzer accept **two**
calls, not one: the rejected call at 150 ms does not update
`lastMoveTime`, so the call at 200 ms is 100 ms past the last accepted one
and is accepted. -/
theorem c3_gate_counterexample :
    (runMoves (fun q => q) 1000 1000 (initialAnalyzer 0)
      [(10, 0, 100), (20, 0, 150), (30, 0, 200)]).mouseData.length = 2 ∧
    (150 : ℚ) - 100 ≤ 50 ∧ (200 : ℚ) - 150 ≤ 50 ∧ (2 : ℕ) ≠ 1 := by
  refine ⟨?_, by norm_num, by norm_num, by decide⟩
  norm_num [runMoves, handleMouseMove, initialAnalyzer, calculateDistance]

/-- C3 (amended): a pointer-move call is a no-op iff it arrives at most
50 ms after the last **accepted** (or initial) move time, and an accepted
call appends one `PointerSample` and one `MovementPoint` and updates the
last-accepted position and time; consequently, in a sequence whose first
call is more than 50 ms past the initial move time and whose consecutive
gaps all exceed 50 ms, every call is accepted.  (In a ≤ 50 ms-spaced
sequence only calls within 50 ms of the last accepted one are dropped; a
later call may be accepted once more than 50 ms have accumulated, as the
counterexample shows.) -/
theorem c3_rate_gate :
    (∀ (jsSqrt : ℚ → ℚ) (innerWidth innerHeight : ℚ) (st : AnalyzerState)
        (x y now : ℚ), now - st.lastMoveTime ≤ 50 →
      handleMouseMove jsSqrt innerWidth innerHeight st x y now = st) ∧
    (∀ (jsSqrt : ℚ → ℚ) (innerWidth innerHeight : ℚ) (st : AnalyzerState)
        (x y now : ℚ), now - st.lastMoveTime > 50 →
      (handleMouseMove jsSqrt innerWidth innerHeight st x y now).mouseData.length =
          st.mouseData.length + 1 ∧
      (handleMouseMove jsSqrt innerWidth innerHeight st x y now).movementPoints.length =
          st.movementPoints.length + 1 ∧
      (handleMouseMove jsSqrt innerWidth innerHeight st x y now).lastMoveTime = now ∧
      (handleMouseMove jsSqrt innerWidth innerHeight st x y now).lastMousePosition =
          (x, y)) ∧
    (∀ (jsSqrt : ℚ → ℚ) (innerWidth innerHeight : ℚ)
        (calls : List (ℚ × ℚ × ℚ)) (st : AnalyzerState),
      List.Chain (fun a b => a + 50 < b) st.lastMoveTime
          (calls.map fun c => c.2.2) →
      (runMoves jsSqrt innerWidth innerHeight st calls).mouseData.length =
        st.mouseData.length + calls.length) := by
  refine ⟨?_, ?_, ?_⟩
  · intro jsSqrt innerWidth innerHeight st x y now hle
    have hnot : ¬now - st.lastMoveTime > 50 := by linarith
    simp [handleMouseMove, hnot]
  · intro jsSqrt innerWidth innerHeight st x y now hacc
    refine ⟨?_, ?_, ?_, ?_⟩ <;> simp [handleMouseMove, hacc]
  · intro jsSqrt innerWidth innerHeight calls
    induction calls with
    | nil => intro st _; simp [runMoves]
    | cons c rest ih =>
      intro st hch
      rw [List.map_cons, List.chain_cons] at hch
      obtain ⟨h1, h2⟩ := hch
      have hacc : c.2.2 - st.lastMoveTime > 50 := by linarith
      have hstep : runMoves jsSqrt innerWidth innerHeight st (c :: rest) =
          runMoves jsSqrt innerWidth innerHeight
            (handleMouseMove jsSqrt innerWidth innerHeight st c.1 c.2.1 c.2.2)
            rest := by
        simp [runMoves]
      have htime :
          (handleMouseMove jsSqrt innerWidth innerHeight st c.1 c.2.1 c.2.2).lastMoveTime =
            c.2.2 := by
        simp [handleMouseMove, hacc]
      have hlen :
          (handleMouseMove jsSqrt innerWidth innerHeight st c.1 c.2.1 c.2.2).mouseData.length =
            st.mouseData.length + 1 := by
        simp [handleMouseMove, hacc]
      rw [hstep, ih _ (by rw [htime]; exact h2), hlen]
      simp only [List.length_cons]
      omega

/-- C3 witness: a call 30 ms after initialization is a no-op; a call 100 ms
after initialization is accepted with all four state effects; and three
calls at 100, 200, 300 ms (all gaps > 50 ms) are all accepted. -/
theorem c3_rate_gate_witness :
    handleMouseMove (fun q => q) 1000 1000 (initialAnalyzer 0) 10 20 30 =
      initialAnalyzer 0 ∧
    ((handleMouseMove (fun q => q) 1000 1000 (initialAnalyzer 0) 10 20 100).mouseData.length =
        (initialAnalyzer 0).mouseData.length + 1 ∧
      (handleMouseMove (fun q => q) 1000 1000 (initialAnalyzer 0) 10 20 100).movementPoints.length =
        (initialAnalyzer 0).movementPoints.length + 1 ∧
      (handleMouseMove (fun q => q) 1000 1000 (initialAnalyzer 0) 10 20 100).lastMoveTime = 100 ∧
      (handleMouseMove (fun q => q) 1000 1000 (initialAnalyzer 0) 10 20 100).lastMousePosition =
        (10, 20)) ∧
    (runMoves (fun q => q) 1000 1000 (initialAnalyzer 0)
        [(1, 1, 100), (2, 2, 200), (3, 3, 300)]).mouseData.length =
      (initialAnalyzer 0).mouseData.length + 3 := by
  refine ⟨c3_rate_gate.1 _ 1000 1000 (initialAnalyzer 0) 10 20 30 (by norm_num [initialAnalyzer]),
    c3_rate_gate.2.1 _ 1000 1000 (initialAnalyzer 0) 10 20 100 (by norm_num [initialAnalyzer]),
    c3_rate_gate.2.2 _ 1000 1000 [(1, 1, 100), (2, 2, 200), (3, 3, 300)]
      (initialAnalyzer 0) ?_⟩
  simp only [List.map_cons, List.map_nil, List.chain_cons, List.Chain.nil]
  norm_num [initialAnalyzer]

/-- The per-step speed variance is a mean of squares, hence nonnegative. -/
lemma speedsVariance_nonneg (jsSqrt : ℚ → ℚ)
    (movementPoints : List MovementPoint) :
    0 ≤ speedsVariance jsSqrt movementPoints := by
  unfold speedsVariance
  apply div_nonneg
  · apply List.sum_nonneg
    intro x hx
    simp only [List.mem_map] at hx
    obtain ⟨s, _, rfl⟩ := hx
    positivity
  · positivity

/-- C6: `calculateMovementConsistency` returns exactly 0.5 whenever fewer
than 10 movement points exist, regardless of their values; with at least 10
points it equals `max(0, 1 - variance(stepSpeeds)/10000)`; and the result
always lies in [0, 1] (the variance is nonnegative). -/
theorem c6_movement_consistency :
    (∀ (jsSqrt : ℚ → ℚ) (movementPoints : List MovementPoint),
      movementPoints.length < 10 →
      calculateMovementConsistency jsSqrt movementPoints = 0.5) ∧
    (∀ (jsSqrt : ℚ → ℚ) (movementPoints : List MovementPoint),
      10 ≤ movementPoints.length →
      calculateMovementConsistency jsSqrt movementPoints =
        max 0 (1 - speedsVariance jsSqrt movementPoints / 10000)) ∧
    (∀ (jsSqrt : ℚ → ℚ) (movementPoints : List MovementPoint),
      0 ≤ calculateMovementConsistency jsSqrt movementPoints ∧
      calculateMovementConsistency jsSqrt movementPoints ≤ 1) := by
  refine ⟨?_, ?_, ?_⟩
  · intro jsSqrt movementPoints h
    simp [calculateMovementConsistency, h]
  · intro jsSqrt movementPoints h
    have hnot : ¬movementPoints.length < 10 := by omega
    simp [calculateMovementConsistency, hnot]
  · intro jsSqrt movementPoints
    by_cases h : movementPoints.length < 10
    · constructor <;> norm_num [calculateMovementConsistency, h]
    · have hv := speedsVariance_nonneg jsSqrt movementPoints
      simp only [calculateMovementConsistency, if_neg h]
      refine ⟨le_max_left 0 _, max_le (by norm_num) ?_⟩
      have hdiv : 0 ≤ speedsVariance jsSqrt movementPoints / 10000 := by
        positivity
      linarith

/-- C6 witness: the empty point list yields 0.5; the ten points of
`tenPoints` take the variance branch, whose value is within [0, 1]. -/
theorem c6_movement_consistency_witness :
    calculateMovementConsistency (fun q => q) [] = 0.5 ∧
    calculateMovementConsistency (fun q => q) tenPoints =
      max 0 (1 - speedsVariance (fun q => q) tenPoints / 10000) ∧
    (0 ≤ calculateMovementConsistency (fun q => q) tenPoints ∧
      calculateMovementConsistency (fun q => q) tenPoints ≤ 1) := by
  exact ⟨c6_movement_consistency.1 (fun q => q) [] (by decide),
    c6_movement_consistency.2.1 (fun q => q) tenPoints (by decide),
    c6_movement_consistency.2.2 (fun q => q) tenPoints⟩

/-- Folding heatmap appends from a buffer of at most 50 cells keeps exactly
the most recent 50 of (buffer ++ appended cells). -/
lemma foldl_updateClickHeatmap (counts : List ℕ) :
    ∀ cells : List Bool, cells.length ≤ 50 →
      counts.foldl updateClickHeatmap cells =
        (cells ++ counts.map heatmapCell).drop
          (cells.length + counts.length - 50) := by
  induction counts with
  | nil =>
    intro cells h
    simp only [List.foldl_nil, List.map_nil, List.append_nil, List.length_nil,
      Nat.add_zero]
    rw [Nat.sub_eq_zero_of_le h, List.drop_zero]
  | cons n ns ih =>
    intro cells h
    rw [List.foldl_cons]
    by_cases hlt : cells.length < 50
    · have hstep : updateClickHeatmap cells n = cells ++ [heatmapCell n] := by
        simp only [updateClickHeatmap]
        rw [if_neg (by simp only [List.length_append, List.length_cons,
          List.length_nil]; omega)]
      rw [hstep, ih _ (by simp only [List.length_append, List.length_cons,
        List.length_nil]; omega)]
      have e1 : (cells ++ [heatmapCell n]).length + ns.length - 50 =
          cells.length + (n :: ns).length - 50 := by
        simp only [List.length_append, List.length_cons, List.length_nil]
        omega
      rw [e1, List.append_assoc, List.singleton_append, List.map_cons]
    · have h50 : cells.length = 50 := by omega
      obtain ⟨c0, ctail, rfl⟩ : ∃ c0 ctail, cells = c0 :: ctail := by
        cases cells with
        | nil => simp at h50
        | cons a t => exact ⟨a, t, rfl⟩
      have hct : ctail.length = 49 := by
        simp only [List.length_cons] at h50
        omega
      have hstep : updateClickHeatmap (c0 :: ctail) n =
          ctail ++ [heatmapCell n] := by
        simp only [updateClickHeatmap]
        rw [if_pos (by simp only [List.length_append, List.length_cons,
          List.length_nil]; omega)]
        simp
      rw [hstep, ih _ (by simp only [List.length_append, List.length_cons,
        List.length_nil]; omega)]
      have e1 : (ctail ++ [heatmapCell n]).length + ns.length - 50 =
          ns.length := by
        simp only [List.length_append, List.length_cons, List.length_nil]
        omega
      have e2 : (c0 :: ctail).length + (n :: ns).length - 50 = ns.length + 1 := by
        simp only [List.length_cons]
        omega
      rw [e1, e2, List.map_cons, List.cons_append, List.drop_succ_cons,
        List.append_assoc, List.singleton_append]

/-- C8: an append to a heatmap holding at most 50 cells leaves at most 50
cells (the oldest is evicted once the count exceeds 50), and after 60
appends to an initially empty heatmap exactly the most recent 50 cells are
retained. -/
theorem c8_heatmap_cap :
    (∀ (cells : List Bool) (clickCount : ℕ), cells.length ≤ 50 →
      (updateClickHeatmap cells clickCount).length ≤ 50) ∧
    (∀ counts : List ℕ, counts.length = 60 →
      counts.foldl updateClickHeatmap [] = (counts.map heatmapCell).drop 10) := by
  constructor
  · intro cells clickCount h
    simp only [updateClickHeatmap]
    by_cases hlen : (cells ++ [heatmapCell clickCount]).length > 50
    · rw [if_pos hlen]
      simp only [List.length_tail, List.length_append, List.length_cons,
        List.length_nil]
      omega
    · rw [if_neg hlen]
      simp only [List.length_append, List.length_cons, List.length_nil] at hlen ⊢
      omega
  · intro counts h
    rw [foldl_updateClickHeatmap counts [] (by simp)]
    simp [h]

/-- C8 witness: appending to a full 50-cell heatmap keeps it at 50 cells,
and 60 appends from empty retain the most recent 50 cells. -/
theorem c8_heatmap_cap_witness :
    (updateClickHeatmap (List.replicate 50 true) 3).length ≤ 50 ∧
    (List.range 60).foldl updateClickHeatmap [] =
      ((List.range 60).map heatmapCell).drop 10 := by
  exact ⟨c8_heatmap_cap.1 (List.replicate 50 true) 3 (by simp),
    c8_heatmap_cap.2 (List.range 60) (by simp)⟩

end BehaviorAnalyzer
